import Mathlib

/-!
# Document wrapper bindings: V8HTMLDocumentCustom.cpp

A shallow embedding of the custom bindings of the HTML document wrapper
(named and indexed property interceptors, the `all` accessor pair, the
`write`, `writeln` and `open` callbacks and the wrapper constructor `toV8`),
followed by theorems about them.

Conventions of the embedding.

* A handle is an optional script value; the empty handle is `none`.
* Handles to heap objects compare by identity, which the embedding renders as
  equality of the heap identifier carried by the value.
* Calls into the DOM and into the script engine are recorded, in program
  order, in the `trace` of the outcome of each function.  The answers of those
  calls are read off the `HTMLDocument` record and the `Bindings` record.
* Each function that receives a holder returns the holder as it is left by the
  call, so that writes to the internal fields are explicit.
-/

namespace WebCore

/-! ## Script values and DOM objects -/

/-- Script values.  Objects and functions carry their heap identity. -/
inductive Value where
  | undefined
  | null
  | boolean (b : Bool)
  | number (n : Int)
  | string (s : String)
  | object (id : Nat)
  | function (id : Nat)
  deriving DecidableEq, Repr

/-- A handle to a script value; `none` is the empty handle. -/
abbrev Handle := Option Value

/-- Test `v8::Value::IsFunction`. -/
def Value.IsFunction : Value → Bool
  | .function _ => true
  | _ => false

/-- A frame, as far as this file looks at it: `document()` and `domWindow()`. -/
structure Frame where
  ref : Nat
  document : Option Nat
  domWindow : Nat
  deriving DecidableEq, Repr

/-- A DOM node, as far as this file looks at it: its tag name and, for an
iframe element, its content frame. -/
structure Node where
  ref : Nat
  tagName : String
  contentFrame : Option Frame
  deriving DecidableEq, Repr

/-- The tag name `HTMLNames::iframeTag`. -/
def iframeTag : String := "iframe"

/-- Test `Node::hasTagName`. -/
def Node.hasTagName (node : Node) (tag : String) : Bool :=
  decide (node.tagName = tag)

/-- An `HTMLCollection`: the nodes it enumerates, in order. -/
structure HTMLCollection where
  items : List Node
  deriving DecidableEq, Repr

/-- Length of a collection, `HTMLCollection::length`. -/
def HTMLCollection.length (c : HTMLCollection) : Nat := c.items.length

/-- First node of a collection, `HTMLCollection::firstItem` (null when empty). -/
def HTMLCollection.firstItem (c : HTMLCollection) : Option Node := c.items.head?

/-- The native document: the answers of the DOM calls this file makes. -/
structure HTMLDocument where
  ref : Nat
  frame : Option Frame
  hasNamedItem : String → Bool
  hasExtraNamedItem : String → Bool
  documentNamedItems : String → HTMLCollection
  all : HTMLCollection

/-- Modelled from the spec: the header declaring `V8HTMLDocument::markerIndex`
and `V8HTMLDocument::shadowIndex` is not among the sources; the spec names the
two reserved slots of the wrapper "marker" and "shadow". -/
inductive InternalField where
  | markerIndex
  | shadowIndex
  deriving DecidableEq, Repr

export InternalField (markerIndex shadowIndex)

/-- The document wrapper object: its identity as a script value, the native
document it wraps, and its two reserved internal fields. -/
structure WrapperObject where
  self : Value
  native : HTMLDocument
  markerField : Value
  shadowField : Value

/-- Read an internal field, `v8::Object::GetInternalField`. -/
def WrapperObject.GetInternalField (w : WrapperObject) : InternalField → Value
  | .markerIndex => w.markerField
  | .shadowIndex => w.shadowField

/-- Write an internal field, `v8::Object::SetInternalField`. -/
def WrapperObject.SetInternalField (w : WrapperObject) (index : InternalField) (value : Value) :
    WrapperObject :=
  match index with
  | .markerIndex => ⟨w.self, w.native, value, w.shadowField⟩
  | .shadowIndex => ⟨w.self, w.native, w.markerField, value⟩

/-- Native object of a wrapper, `V8HTMLDocument::toNative`. -/
def toNative (holder : WrapperObject) : HTMLDocument := holder.native

/-- The `v8::AccessorInfo` of an interceptor call: its holder. -/
structure AccessorInfo where
  Holder : WrapperObject

/-- The `v8::Arguments` of a callback: its holder and the argument values. -/
structure Arguments where
  Holder : WrapperObject
  values : List Value

/-- Number of arguments, `v8::Arguments::Length`. -/
def Arguments.Length (args : Arguments) : Nat := args.values.length

/-- Argument `i`, `v8::Arguments::operator[]`: undefined outside the range. -/
def Arguments.get (args : Arguments) (i : Nat) : Value := args.values.getD i Value.undefined

/-! ## The script engine and the other bindings -/

/-- The global object of a context: its identity and its property lookup
(`none` when the object has no such property). -/
structure GlobalObject where
  self : Value
  properties : String → Option Value

/-- Property read `v8::Object::Get`: the value of the property, and undefined
when there is no such property. -/
def GlobalObject.Get (global : GlobalObject) (name : String) : Value :=
  (global.properties name).getD Value.undefined

/-- A script context: its global object. -/
structure Context where
  Global : GlobalObject

/-- The proxy of a frame: the result handle of `V8Proxy::callFunction` for a
function, a receiver, an argument count and the arguments. -/
structure V8Proxy where
  callFunction : Value → Value → Nat → List Value → Handle

/-- The heap of the script engine, as far as object creation goes: the number
of objects created so far. -/
structure V8Heap where
  allocated : Nat
  deriving DecidableEq, Repr

/-- Modelled from the spec: `v8::Object::New` is not among the sources; the
spec has it produce a marker object created at that moment.  The new object
gets the first identity not yet in use. -/
def Object.New (heap : V8Heap) : Value × V8Heap :=
  (Value.object heap.allocated, ⟨heap.allocated + 1⟩)

/-- An object value was created in the given heap. -/
def Value.allocatedIn (heap : V8Heap) : Value → Prop
  | .object id => id < heap.allocated
  | _ => True

/-- Calls into the DOM and the script engine, as recorded in a trace. -/
inductive Event where
  | hasNamedItem (document : Nat) (key : String)
  | hasExtraNamedItem (document : Nat) (key : String)
  | documentNamedItems (document : Nat) (key : String)
  | documentAll (document : Nat)
  | documentWrite (document : Nat) (text : String) (ownerDocument : Option Nat)
  | documentWriteln (document : Nat) (text : String) (ownerDocument : Option Nat)
  | documentOpen (document : Nat) (ownerDocument : Option Nat)
  | globalGet (global : Value) (name : String)
  | callFunction (function : Value) (receiver : Value) (argc : Nat) (params : List Value)
  | throwError (message : String)
  | updateDocumentWrapper (wrapper : Value)
  deriving DecidableEq, Repr

/-- The event raises a script error. -/
def Event.isError : Event → Bool
  | .throwError _ => true
  | _ => false

/-- The event invokes a script function. -/
def Event.isCallFunction : Event → Bool
  | .callFunction _ _ _ _ => true
  | _ => false

/-- The event calls the document's own open. -/
def Event.isDocumentOpen : Event → Bool
  | .documentOpen _ _ => true
  | _ => false

/-- The event reads a property of a global object. -/
def Event.isGlobalGet : Event → Bool
  | .globalGet _ _ => true
  | _ => false

/-- The event asks the document about its named items. -/
def Event.isNamedItemQuery : Event → Bool
  | .hasNamedItem _ _ => true
  | .hasExtraNamedItem _ _ => true
  | .documentNamedItems _ _ => true
  | _ => false

/-- The functions of the other bindings and of the proxy that this file calls.
They are declared outside this file and enter as parameters. -/
structure Bindings where
  toWebCoreString : Value → String
  retrieveFrameForCallingContext : Option Frame
  context : Frame → Option Context
  retrieve : Option Frame → Option V8Proxy
  getEntered : Bool
  wrap : V8Heap → HTMLDocument → Bool → Option WrapperObject × V8Heap
  toV8Node : Node → Handle
  toV8DOMWindow : Nat → Handle
  toV8HTMLCollection : HTMLCollection → Handle
  toV8HTMLAllCollection : HTMLCollection → Handle

/-- Result of a function that receives a holder: the returned value, the calls
made, and the holder as the call leaves it. -/
structure Outcome (α : Type) where
  ret : α
  trace : List Event
  holder : WrapperObject

/-- Conversion `v8StringToAtomicWebCoreString`: the same characters. -/
def v8StringToAtomicWebCoreString (name : String) : String := name

/-- Modelled from the spec: `notHandledByInterceptor` is declared outside the
sources; the spec has the lookup return "nothing", the empty handle. -/
def notHandledByInterceptor : Handle := none

/-- Modelled from the spec: `deletionNotHandledByInterceptor` is declared
outside the sources; it is the empty boolean handle. -/
def deletionNotHandledByInterceptor : Option Bool := none

/-! ## The functions of V8HTMLDocumentCustom.cpp -/

/-- Interceptor `V8HTMLDocument::namedPropertyDeleter`. -/
def namedPropertyDeleter (name : String) (info : AccessorInfo) : Outcome (Option Bool) :=
  let key := v8StringToAtomicWebCoreString name
  let all := "all"
  if key ≠ all then
    ⟨deletionNotHandledByInterceptor, [], info.Holder⟩
  else
    let marker := info.Holder.GetInternalField markerIndex
    ⟨some true, [], info.Holder.SetInternalField shadowIndex marker⟩

/-- The second half of `namedPropertyGetter`, from the fetch of the native
document on: the lookup among the named items of the document.  It yields the
returned handle and the calls made to the document. -/
def namedPropertyGetter.lookup (env : Bindings) (htmlDocument : HTMLDocument) (key : String) :
    Handle × List Event :=
  let asked :=
    if htmlDocument.hasNamedItem key then [Event.hasNamedItem htmlDocument.ref key]
    else [Event.hasNamedItem htmlDocument.ref key, Event.hasExtraNamedItem htmlDocument.ref key]
  if !htmlDocument.hasNamedItem key && !htmlDocument.hasExtraNamedItem key then
    (none, asked)
  else
    let queries := asked ++ [Event.documentNamedItems htmlDocument.ref key]
    let items := htmlDocument.documentNamedItems key
    if items.length = 0 then
      (notHandledByInterceptor, queries)
    else if items.length = 1 then
      match items.firstItem with
      | none => (notHandledByInterceptor, queries)
      | some node =>
        match (if node.hasTagName iframeTag then node.contentFrame else none) with
        | some frame => (env.toV8DOMWindow frame.domWindow, queries)
        | none => (env.toV8Node node, queries)
    else
      (env.toV8HTMLCollection items, queries)

/-- Interceptor `V8HTMLDocument::namedPropertyGetter`.  The nested tests
`key == all` and `marker != value` of the source are one conjunction here; the
two slot reads have no effect of their own. -/
def namedPropertyGetter (env : Bindings) (name : String) (info : AccessorInfo) : Outcome Handle :=
  let key := v8StringToAtomicWebCoreString name
  let all := "all"
  let marker := info.Holder.GetInternalField markerIndex
  let value := info.Holder.GetInternalField shadowIndex
  if key = all ∧ marker ≠ value then
    ⟨some value, [], info.Holder⟩
  else
    let htmlDocument := toNative info.Holder
    let found := namedPropertyGetter.lookup env htmlDocument key
    ⟨found.1, found.2, info.Holder⟩

/-- Constructor `v8::Integer::NewFromUnsigned` on a 32-bit unsigned index. -/
def Integer.NewFromUnsigned (index : Nat) : Int := ((index % 2 ^ 32 : Nat) : Int)

/-- Conversion `ToString` of an integer value: its decimal digits. -/
def Integer.ToString (n : Int) : String := toString n

/-- Interceptor `V8HTMLDocument::indexedPropertyGetter`. -/
def indexedPropertyGetter (env : Bindings) (index : Nat) (info : AccessorInfo) : Outcome Handle :=
  let indexV8 := Integer.NewFromUnsigned index
  namedPropertyGetter env (Integer.ToString indexV8) info

/-- Helper `writeHelperGetString`: the loop over the argument indices. -/
def writeHelperGetString (env : Bindings) (args : Arguments) : String :=
  (List.range args.Length).foldl (fun str i => str ++ env.toWebCoreString (args.get i)) ""

/-- Callback `V8HTMLDocument::writeCallback`. -/
def writeCallback (env : Bindings) (args : Arguments) : Outcome Handle :=
  let htmlDocument := toNative args.Holder
  let frame := env.retrieveFrameForCallingContext
  ⟨some Value.undefined,
    [Event.documentWrite htmlDocument.ref (writeHelperGetString env args)
      (match frame with
       | some frame => frame.document
       | none => none)],
    args.Holder⟩

/-- Callback `V8HTMLDocument::writelnCallback`. -/
def writelnCallback (env : Bindings) (args : Arguments) : Outcome Handle :=
  let htmlDocument := toNative args.Holder
  let frame := env.retrieveFrameForCallingContext
  ⟨some Value.undefined,
    [Event.documentWriteln htmlDocument.ref (writeHelperGetString env args)
      (match frame with
       | some frame => frame.document
       | none => none)],
    args.Holder⟩

/-- The tail of `openCallback`: the document's own open, returning the holder. -/
def openCallback.ownOpen (env : Bindings) (args : Arguments) : Outcome Handle :=
  let htmlDocument := toNative args.Holder
  let frame := env.retrieveFrameForCallingContext
  ⟨some args.Holder.self,
    [Event.documentOpen htmlDocument.ref
      (match frame with
       | some frame => frame.document
       | none => none)],
    args.Holder⟩

/-- Callback `V8HTMLDocument::openCallback`.  The result is `none` when the
assertion on the proxy fails, in which case the call has no defined result. -/
def openCallback (env : Bindings) (args : Arguments) : Option (Outcome Handle) :=
  let htmlDocument := toNative args.Holder
  if args.Length > 2 then
    match htmlDocument.frame with
    | some frame =>
      match env.context frame with
      | none => some ⟨some Value.undefined, [], args.Holder⟩
      | some context =>
        let global := context.Global
        let function := global.Get "open"
        if !function.IsFunction then
          some ⟨some Value.undefined,
            [Event.globalGet global.self "open", Event.throwError "open is not a function"],
            args.Holder⟩
        else
          let params := (List.range args.Length).map (fun i => args.get i)
          match env.retrieve (some frame) with
          | none => none
          | some proxy =>
            let result := proxy.callFunction function global.self args.Length params
            some ⟨result,
              [Event.globalGet global.self "open",
               Event.callFunction function global.self args.Length params],
              args.Holder⟩
    | none => some (openCallback.ownOpen env args)
  else
    some (openCallback.ownOpen env args)

/-- Accessor `V8HTMLDocument::allAccessorGetter`. -/
def allAccessorGetter (env : Bindings) (_name : String) (info : AccessorInfo) : Outcome Handle :=
  let holder := info.Holder
  let htmlDocument := toNative holder
  ⟨env.toV8HTMLAllCollection htmlDocument.all, [Event.documentAll htmlDocument.ref], holder⟩

/-- Accessor `V8HTMLDocument::allAccessorSetter`. -/
def allAccessorSetter (_name : String) (value : Value) (info : AccessorInfo) : Outcome Unit :=
  ⟨(), [], info.Holder.SetInternalField shadowIndex value⟩

/-- What `toV8` hands back: the null value, the empty handle, or the wrapper. -/
inductive DocumentHandle where
  | null
  | empty
  | wrapper (w : WrapperObject)

/-- Result of `toV8`: the returned handle, the calls made, and the heap. -/
structure ToV8Outcome where
  ret : DocumentHandle
  trace : List Event
  heap : V8Heap

/-- Function `toV8(HTMLDocument*, bool)`. -/
def toV8 (env : Bindings) (heap : V8Heap) (impl : Option HTMLDocument) (forceNewObject : Bool) :
    ToV8Outcome :=
  match impl with
  | none => ⟨DocumentHandle.null, [], heap⟩
  | some impl =>
    match env.wrap heap impl forceNewObject with
    | (none, heap) => ⟨DocumentHandle.empty, [], heap⟩
    | (some wrapper, heap) =>
      let updates :=
        if !env.getEntered then
          match env.retrieve impl.frame with
          | some _ => [Event.updateDocumentWrapper wrapper.self]
          | none => []
        else []
      let created := Object.New heap
      let marker := created.1
      let wrapper := wrapper.SetInternalField markerIndex marker
      let wrapper := wrapper.SetInternalField shadowIndex marker
      ⟨DocumentHandle.wrapper wrapper, updates, created.2⟩

/-! ## Histories of accesses to one wrapper -/

/-- One access to the document wrapper through the interceptors and the `all`
setter. -/
inductive Op where
  | allAccessorSetter (value : Value)
  | namedPropertyDeleter (name : String)
  | namedPropertyGetter (name : String)
  deriving DecidableEq, Repr

/-- The wrapper after one access. -/
def Op.apply (env : Bindings) (w : WrapperObject) : Op → WrapperObject
  | .allAccessorSetter value => (WebCore.allAccessorSetter "all" value ⟨w⟩).holder
  | .namedPropertyDeleter name => (WebCore.namedPropertyDeleter name ⟨w⟩).holder
  | .namedPropertyGetter name => (WebCore.namedPropertyGetter env name ⟨w⟩).holder

/-- The wrapper after a history of accesses, oldest first. -/
def runOps (env : Bindings) (w : WrapperObject) (ops : List Op) : WrapperObject :=
  ops.foldl (Op.apply env) w

/-- The specification's reading of "currently shadowed", one access at a time:
an assignment to `all` shadows it, a delete of `all` ends the shadowing, and
nothing else changes it. -/
def shadowedStep (shadowed : Bool) : Op → Bool
  | .allAccessorSetter _ => true
  | .namedPropertyDeleter name => if name = "all" then false else shadowed
  | .namedPropertyGetter _ => shadowed

/-- The specification's reading of "currently shadowed" after a history that
starts at the creation of the wrapper: some assignment to `all` has happened
and no delete of `all` has happened after the last one. -/
def allShadowedAfter (ops : List Op) : Bool :=
  ops.foldl shadowedStep false

/-- No assignment in the history stores the given marker object. -/
def neverAssigns (marker : Value) (ops : List Op) : Prop :=
  ∀ value, Op.allAccessorSetter value ∈ ops → value ≠ marker

/-- The trace raises a script error. -/
def raisesError (trace : List Event) : Bool := trace.any Event.isError

/-! ## Sample documents and engines -/

namespace Sample

/-- A frame showing document 1. -/
def frame : Frame := ⟨10, some 1, 20⟩

/-- An image element named `all`. -/
def image : Node := ⟨30, "img", none⟩

/-- An iframe element with a content frame. -/
def iframe : Node := ⟨31, "iframe", some ⟨11, some 2, 21⟩⟩

/-- A document without named items, displayed in `frame`. -/
def plainDocument : HTMLDocument :=
  ⟨1, some frame, fun _ => false, fun _ => false, fun _ => ⟨[]⟩, ⟨[]⟩⟩

/-- A document without named items and without a frame. -/
def detachedDocument : HTMLDocument :=
  ⟨3, none, fun _ => false, fun _ => false, fun _ => ⟨[]⟩, ⟨[]⟩⟩

/-- A document whose only named item is an image named `all`. -/
def imageDocument : HTMLDocument :=
  ⟨1, some frame, fun key => decide (key = "all"), fun _ => false,
    fun key => if key = "all" then ⟨[image]⟩ else ⟨[]⟩, ⟨[image]⟩⟩

/-- A document with an iframe named `pane` and two images named `pair`. -/
def richDocument : HTMLDocument :=
  ⟨1, some frame, fun key => decide (key = "pane") || decide (key = "pair"), fun _ => false,
    fun key => if key = "pane" then ⟨[iframe]⟩ else if key = "pair" then ⟨[image, image]⟩ else ⟨[]⟩,
    ⟨[iframe, image, image]⟩⟩

/-- A global object whose `open` is the function 5. -/
def globalWithOpen : GlobalObject :=
  ⟨Value.object 100, fun name => if name = "open" then some (Value.function 5) else none⟩

/-- A global object without an `open` property. -/
def globalWithoutOpen : GlobalObject := ⟨Value.object 100, fun _ => none⟩

/-- A proxy whose calls return the number of arguments passed. -/
def proxy : V8Proxy := ⟨fun _ _ argc _ => some (Value.number argc)⟩

/-- Bindings for a page whose frames all have the given global object (or no
script context when there is none).  The wrapper of a DOM object is the object
whose identity is the reference of the DOM object, and `wrap` creates a new
wrapper object with undefined slots. -/
def bindings (global : Option GlobalObject) : Bindings where
  toWebCoreString := fun value =>
    match value with
    | .string s => s
    | _ => ""
  retrieveFrameForCallingContext := some frame
  context := fun _ => global.map Context.mk
  retrieve := fun frame => frame.map (fun _ => proxy)
  getEntered := false
  wrap := fun heap impl _ =>
    (some ⟨Value.object heap.allocated, impl, Value.undefined, Value.undefined⟩,
      ⟨heap.allocated + 1⟩)
  toV8Node := fun node => some (Value.object node.ref)
  toV8DOMWindow := fun window => some (Value.object window)
  toV8HTMLCollection := fun _ => some (Value.object 40)
  toV8HTMLAllCollection := fun _ => some (Value.object 41)

/-- Bindings whose `wrap` hands back an existing wrapper, object 6, that still
holds marker object 7 and the number 4 assigned to `all` earlier. -/
def rewrapping : Bindings where
  toWebCoreString := fun _ => ""
  retrieveFrameForCallingContext := none
  context := fun _ => none
  retrieve := fun _ => none
  getEntered := false
  wrap := fun heap impl _ => (some ⟨Value.object 6, impl, Value.object 7, Value.number 4⟩, heap)
  toV8Node := fun node => some (Value.object node.ref)
  toV8DOMWindow := fun window => some (Value.object window)
  toV8HTMLCollection := fun _ => some (Value.object 40)
  toV8HTMLAllCollection := fun _ => some (Value.object 41)

/-- A wrapper of the given document with marker object 7 in both slots. -/
def wrapper (document : HTMLDocument) : WrapperObject :=
  ⟨Value.object 6, document, Value.object 7, Value.object 7⟩

end Sample

/-! ## Basic facts about the embedding -/

theorem namedPropertyGetter_holder (env : Bindings) (name : String) (info : AccessorInfo) :
    (namedPropertyGetter env name info).holder = info.Holder := by
  unfold namedPropertyGetter
  simp only []
  repeat (first | rfl | split)

theorem Op.apply_markerField (env : Bindings) (w : WrapperObject) (op : Op) :
    (Op.apply env w op).markerField = w.markerField := by
  cases op with
  | allAccessorSetter value => rfl
  | namedPropertyDeleter name =>
    simp only [Op.apply, WebCore.namedPropertyDeleter]
    split <;> rfl
  | namedPropertyGetter name =>
    simp only [Op.apply, namedPropertyGetter_holder]

theorem Op.apply_shadowField (env : Bindings) (w : WrapperObject) (op : Op) :
    (Op.apply env w op).shadowField =
      match op with
      | .allAccessorSetter value => value
      | .namedPropertyDeleter name => if name = "all" then w.markerField else w.shadowField
      | .namedPropertyGetter _ => w.shadowField := by
  cases op with
  | allAccessorSetter value => rfl
  | namedPropertyDeleter name =>
    simp only [Op.apply, WebCore.namedPropertyDeleter, v8StringToAtomicWebCoreString]
    by_cases h : name = "all"
    · simp [h, WrapperObject.SetInternalField, WrapperObject.GetInternalField]
    · simp [h]
  | namedPropertyGetter name =>
    simp only [Op.apply, namedPropertyGetter_holder]

theorem runOps_invariant (env : Bindings) (marker : Value) (ops : List Op) :
    ∀ (w : WrapperObject) (shadowed : Bool), w.markerField = marker →
      (w.shadowField = marker ↔ shadowed = false) → neverAssigns marker ops →
      (runOps env w ops).markerField = marker ∧
        ((runOps env w ops).shadowField = marker ↔ ops.foldl shadowedStep shadowed = false) := by
  induction ops with
  | nil => intro w shadowed hm hs _; exact ⟨hm, hs⟩
  | cons op rest ih =>
    intro w shadowed hm hs hops
    have hrest : neverAssigns marker rest := fun value hmem =>
      hops value (List.mem_cons_of_mem _ hmem)
    have hm1 : (Op.apply env w op).markerField = marker := by
      rw [Op.apply_markerField, hm]
    have hs1 : (Op.apply env w op).shadowField = marker ↔ shadowedStep shadowed op = false := by
      rw [Op.apply_shadowField]
      cases op with
      | allAccessorSetter value =>
        have hne : value ≠ marker := hops value (List.mem_cons_self _ _)
        simp [shadowedStep, hne]
      | namedPropertyDeleter name =>
        by_cases h : name = "all"
        · simp [shadowedStep, h, hm]
        · simp [shadowedStep, h, hs]
      | namedPropertyGetter name => simpa [shadowedStep] using hs
    exact ih (Op.apply env w op) (shadowedStep shadowed op) hm1 hs1 hrest

theorem toV8_wrapper_fields (env : Bindings) (heap : V8Heap) (impl : Option HTMLDocument)
    (forceNewObject : Bool) (w : WrapperObject)
    (hcreate : (toV8 env heap impl forceNewObject).ret = DocumentHandle.wrapper w) :
    w.shadowField = w.markerField := by
  unfold toV8 at hcreate
  cases impl with
  | none => simp at hcreate
  | some impl =>
    simp only [] at hcreate
    split at hcreate
    · simp at hcreate
    · simp only [DocumentHandle.wrapper.injEq] at hcreate
      rw [← hcreate]
      rfl

theorem range_map_getD (xs : List Value) (d : Value) :
    (List.range xs.length).map (fun i => xs.getD i d) = xs := by
  apply List.ext_getElem
  · simp
  · intro i h1 h2
    simp [List.getD_eq_getElem?_getD, List.getElem?_eq_getElem h2]

theorem openCallback_params (args : Arguments) :
    (List.range args.Length).map (fun i => args.get i) = args.values := by
  unfold Arguments.Length Arguments.get
  exact range_map_getD args.values Value.undefined

theorem writeHelperGetString_eq_join (env : Bindings) (args : Arguments) :
    writeHelperGetString env args = String.join (args.values.map env.toWebCoreString) := by
  have h := List.foldl_map (fun i => args.get i)
    (fun (str : String) (value : Value) => str ++ env.toWebCoreString value)
    (List.range args.Length) ""
  rw [openCallback_params] at h
  unfold writeHelperGetString
  rw [← h, String.join, List.foldl_map]

theorem lookup_raises_nothing (env : Bindings) (htmlDocument : HTMLDocument) (key : String) :
    raisesError (namedPropertyGetter.lookup env htmlDocument key).2 = false := by
  unfold namedPropertyGetter.lookup
  simp only []
  repeat (first | split | simp [raisesError, Event.isError])

/-! ## The claims -/

/-- C1: on every wrapper reached from `toV8` by a finite history of
`allAccessorSetter` calls (never storing the marker object itself),
`namedPropertyDeleter` calls and `namedPropertyGetter` calls, the shadow slot
equals the marker slot exactly when `all` is not shadowed, that is, exactly when
no assignment to `all` has happened since the creation of the wrapper or since
the last delete of `all`. -/
theorem shadow_slot_invariant (env : Bindings) (heap : V8Heap) (impl : Option HTMLDocument)
    (forceNewObject : Bool) (w : WrapperObject) (ops : List Op)
    (hcreate : (toV8 env heap impl forceNewObject).ret = DocumentHandle.wrapper w)
    (hops : neverAssigns (w.GetInternalField markerIndex) ops) :
    (runOps env w ops).GetInternalField shadowIndex =
        (runOps env w ops).GetInternalField markerIndex ↔
      allShadowedAfter ops = false := by
  have hfresh := toV8_wrapper_fields env heap impl forceNewObject w hcreate
  have hinv := runOps_invariant env w.markerField ops w false rfl (by simp [hfresh]) hops
  show (runOps env w ops).shadowField = (runOps env w ops).markerField ↔ _
  rw [hinv.1]
  exact hinv.2

/-- C1, on a sample history: assign, read, delete another name, delete `all`,
assign again. -/
theorem shadow_slot_invariant_witness :
    ((runOps (Sample.bindings none)
          ⟨Value.object 0, Sample.imageDocument, Value.object 1, Value.object 1⟩
          [Op.allAccessorSetter (Value.number 4), Op.namedPropertyGetter "all",
            Op.namedPropertyDeleter "images", Op.namedPropertyDeleter "all",
            Op.allAccessorSetter Value.null]).GetInternalField shadowIndex =
        (runOps (Sample.bindings none)
          ⟨Value.object 0, Sample.imageDocument, Value.object 1, Value.object 1⟩
          [Op.allAccessorSetter (Value.number 4), Op.namedPropertyGetter "all",
            Op.namedPropertyDeleter "images", Op.namedPropertyDeleter "all",
            Op.allAccessorSetter Value.null]).GetInternalField markerIndex ↔
      allShadowedAfter
          [Op.allAccessorSetter (Value.number 4), Op.namedPropertyGetter "all",
            Op.namedPropertyDeleter "images", Op.namedPropertyDeleter "all",
            Op.allAccessorSetter Value.null] = false) :=
  shadow_slot_invariant (Sample.bindings none) ⟨0⟩ (some Sample.imageDocument) false
    ⟨Value.object 0, Sample.imageDocument, Value.object 1, Value.object 1⟩ _ rfl
    (by
      intro value hmem
      simp at hmem
      rcases hmem with h | h <;> subst h <;> simp [WrapperObject.GetInternalField])

/-- C2 as stated fails: on a document whose only item named `all` is an image,
assign the wrapper of that image to `all` and delete `all`; the next read of
`all` is answered by the named-item lookup, which returns the wrapper of the
image, the very value that was written. -/
theorem read_after_delete_returns_written_value :
    Value.object 30 ≠ (Sample.wrapper Sample.imageDocument).GetInternalField markerIndex ∧
      (namedPropertyGetter (Sample.bindings none) "all"
          ⟨(namedPropertyDeleter "all"
              ⟨(allAccessorSetter "all" (Value.object 30)
                  ⟨Sample.wrapper Sample.imageDocument⟩).holder⟩).holder⟩).ret =
        some (Value.object 30) := by
  decide

/-- C2, amended: for every wrapper, every document content and every value `v`
other than the marker object, after `allAccessorSetter(v)` the call
`namedPropertyGetter("all")` returns exactly `v` and makes no call to the
document; and after a subsequent `namedPropertyDeleter("all")` the call
`namedPropertyGetter("all")` returns the same value, through the same calls to
the document, as on a wrapper freshly created by `toV8` for the same document. -/
theorem read_after_write (env : Bindings) (w : WrapperObject) (v : Value)
    (hv : v ≠ w.GetInternalField markerIndex) :
    namedPropertyGetter env "all" ⟨(allAccessorSetter "all" v ⟨w⟩).holder⟩ =
        ⟨some v, [], (allAccessorSetter "all" v ⟨w⟩).holder⟩ ∧
      ∀ (heap : V8Heap) (impl : Option HTMLDocument) (forceNewObject : Bool)
        (fresh : WrapperObject),
        (toV8 env heap impl forceNewObject).ret = DocumentHandle.wrapper fresh →
        toNative fresh = toNative w →
        (namedPropertyGetter env "all"
            ⟨(namedPropertyDeleter "all" ⟨(allAccessorSetter "all" v ⟨w⟩).holder⟩).holder⟩).ret =
          (namedPropertyGetter env "all" ⟨fresh⟩).ret ∧
        (namedPropertyGetter env "all"
            ⟨(namedPropertyDeleter "all" ⟨(allAccessorSetter "all" v ⟨w⟩).holder⟩).holder⟩).trace =
          (namedPropertyGetter env "all" ⟨fresh⟩).trace := by
  constructor
  · have hne : w.markerField ≠ v := fun h => hv (by simp [WrapperObject.GetInternalField, h])
    simp [namedPropertyGetter, allAccessorSetter, v8StringToAtomicWebCoreString,
      WrapperObject.SetInternalField, WrapperObject.GetInternalField, hne]
  · intro heap impl forceNewObject fresh hcreate hnative
    have hfresh := toV8_wrapper_fields env heap impl forceNewObject fresh hcreate
    have hnat : fresh.native = w.native := hnative
    simp [namedPropertyGetter, namedPropertyDeleter, allAccessorSetter,
      v8StringToAtomicWebCoreString, WrapperObject.SetInternalField,
      WrapperObject.GetInternalField, toNative, hfresh, hnat]

/-- C2, amended, on a sample: the number 4 is written to `all` of a wrapper of a
document whose only item named `all` is an image. -/
theorem read_after_write_witness :
    namedPropertyGetter (Sample.bindings none) "all"
          ⟨(allAccessorSetter "all" (Value.number 4) ⟨Sample.wrapper Sample.imageDocument⟩).holder⟩ =
        ⟨some (Value.number 4), [],
          (allAccessorSetter "all" (Value.number 4) ⟨Sample.wrapper Sample.imageDocument⟩).holder⟩ ∧
      (namedPropertyGetter (Sample.bindings none) "all"
          ⟨(namedPropertyDeleter "all"
              ⟨(allAccessorSetter "all" (Value.number 4)
                  ⟨Sample.wrapper Sample.imageDocument⟩).holder⟩).holder⟩).ret =
        (namedPropertyGetter (Sample.bindings none) "all"
          ⟨⟨Value.object 0, Sample.imageDocument, Value.object 1, Value.object 1⟩⟩).ret :=
  ⟨(read_after_write (Sample.bindings none) (Sample.wrapper Sample.imageDocument)
      (Value.number 4) (by decide)).1,
    ((read_after_write (Sample.bindings none) (Sample.wrapper Sample.imageDocument)
      (Value.number 4) (by decide)).2 ⟨0⟩ (some Sample.imageDocument) false
      ⟨Value.object 0, Sample.imageDocument, Value.object 1, Value.object 1⟩ rfl rfl).1⟩

/-- C9: `toV8` returns null for a null document; when wrapping fails it returns
the empty handle, makes no call and creates no object; otherwise, whatever the
two slots of the wrapper held before, both slots of the returned wrapper hold
one and the same marker object, which did not exist before the call and exists
after it, so that `all` is unshadowed: a read of `all` on the returned wrapper
is answered by the named-item lookup, not from the shadow slot. -/
theorem toV8_installs_fresh_marker (env : Bindings) (heap : V8Heap) (forceNewObject : Bool) :
    (toV8 env heap none forceNewObject).ret = DocumentHandle.null ∧
      (∀ (impl : HTMLDocument) (heap1 : V8Heap),
        env.wrap heap impl forceNewObject = (none, heap1) →
        (toV8 env heap (some impl) forceNewObject).ret = DocumentHandle.empty ∧
          (toV8 env heap (some impl) forceNewObject).trace = [] ∧
          (toV8 env heap (some impl) forceNewObject).heap = heap1) ∧
      (∀ (impl : HTMLDocument) (wrapper : WrapperObject) (heap1 : V8Heap),
        env.wrap heap impl forceNewObject = (some wrapper, heap1) →
        ∃ (w : WrapperObject) (marker : Value),
          (toV8 env heap (some impl) forceNewObject).ret = DocumentHandle.wrapper w ∧
            w.self = wrapper.self ∧ toNative w = toNative wrapper ∧
            w.GetInternalField markerIndex = marker ∧
            w.GetInternalField shadowIndex = marker ∧
            marker = Value.object heap1.allocated ∧
            ¬ marker.allocatedIn heap1 ∧
            marker.allocatedIn (toV8 env heap (some impl) forceNewObject).heap ∧
            (namedPropertyGetter env "all" ⟨w⟩).ret =
              (namedPropertyGetter.lookup env (toNative wrapper) "all").1) := by
  refine ⟨rfl, ?_, ?_⟩
  · intro impl heap1 hwrap
    simp [toV8, hwrap]
  · intro impl wrapper heap1 hwrap
    refine ⟨⟨wrapper.self, wrapper.native, Value.object heap1.allocated,
      Value.object heap1.allocated⟩, Value.object heap1.allocated, ?_⟩
    simp [toV8, hwrap, Object.New, WrapperObject.SetInternalField,
      WrapperObject.GetInternalField, toNative, Value.allocatedIn, namedPropertyGetter,
      v8StringToAtomicWebCoreString]

/-- C9, on a sample: a wrapper that still holds the number 4 in its shadow slot
is handed to `toV8` again, in a heap of eight objects. -/
theorem toV8_installs_fresh_marker_witness :
    ∃ (w : WrapperObject) (marker : Value),
      (toV8 Sample.rewrapping ⟨8⟩ (some Sample.imageDocument) false).ret =
          DocumentHandle.wrapper w ∧
        w.self = Value.object 6 ∧ toNative w = Sample.imageDocument ∧
        w.GetInternalField markerIndex = marker ∧
        w.GetInternalField shadowIndex = marker ∧
        marker = Value.object 8 ∧
        ¬ marker.allocatedIn ⟨8⟩ ∧
        marker.allocatedIn (toV8 Sample.rewrapping ⟨8⟩ (some Sample.imageDocument) false).heap ∧
        (namedPropertyGetter Sample.rewrapping "all" ⟨w⟩).ret =
          (namedPropertyGetter.lookup Sample.rewrapping Sample.imageDocument "all").1 :=
  (toV8_installs_fresh_marker Sample.rewrapping ⟨8⟩ false).2.2 Sample.imageDocument
    ⟨Value.object 6, Sample.imageDocument, Value.object 7, Value.number 4⟩ ⟨8⟩ rfl

/-- C3: for every argument list, `writeCallback` and `writelnCallback` make
exactly one call, to the write (respectively writeln) of the underlying
document, with the concatenation in argument order of the string conversions of
the arguments, and return undefined; for an empty argument list the string is
empty, and for the arguments "a", "b", "c" it is "abc". -/
theorem write_forwards_concatenation (env : Bindings) (args : Arguments) :
    writeHelperGetString env args = String.join (args.values.map env.toWebCoreString) ∧
      writeCallback env args =
        ⟨some Value.undefined,
          [Event.documentWrite (toNative args.Holder).ref
            (String.join (args.values.map env.toWebCoreString))
            (env.retrieveFrameForCallingContext.bind Frame.document)],
          args.Holder⟩ ∧
      writelnCallback env args =
        ⟨some Value.undefined,
          [Event.documentWriteln (toNative args.Holder).ref
            (String.join (args.values.map env.toWebCoreString))
            (env.retrieveFrameForCallingContext.bind Frame.document)],
          args.Holder⟩ ∧
      writeHelperGetString env ⟨args.Holder, []⟩ = "" ∧
      writeHelperGetString (Sample.bindings none)
        ⟨args.Holder, [Value.string "a", Value.string "b", Value.string "c"]⟩ = "abc" := by
  refine ⟨writeHelperGetString_eq_join env args, ?_, ?_, rfl, rfl⟩
  · unfold writeCallback
    rw [writeHelperGetString_eq_join]
    cases env.retrieveFrameForCallingContext <;> rfl
  · unfold writelnCallback
    rw [writeHelperGetString_eq_join]
    cases env.retrieveFrameForCallingContext <;> rfl

/-- C4 as stated fails: with three arguments on a document whose frame has no
script context, `openCallback` returns undefined and the global `open` is
neither read nor invoked. -/
theorem open_three_arguments_without_context :
    2 < (Arguments.mk (Sample.wrapper Sample.plainDocument)
          [Value.null, Value.null, Value.null]).Length ∧
      (openCallback (Sample.bindings none)
          ⟨Sample.wrapper Sample.plainDocument, [Value.null, Value.null, Value.null]⟩).map
        (fun o => (o.ret, o.trace)) = some (some Value.undefined, []) := by
  decide

/-- C4, amended: for every call of `openCallback` with more than two arguments
on a document that has a frame, whose frame has a script context, whose global
`open` is a function and whose proxy is available, the global `open` is read
and then invoked once with the global object as receiver and exactly the same
arguments in the same order, its result is what `openCallback` returns, and the
document's own open is not called. -/
theorem open_delegates_to_global_open (env : Bindings) (args : Arguments) (frame : Frame)
    (context : Context) (proxy : V8Proxy)
    (hlen : 2 < args.Length)
    (hframe : (toNative args.Holder).frame = some frame)
    (hcontext : env.context frame = some context)
    (hfunction : (context.Global.Get "open").IsFunction = true)
    (hproxy : env.retrieve (some frame) = some proxy) :
    openCallback env args =
      some ⟨proxy.callFunction (context.Global.Get "open") context.Global.self args.Length
          args.values,
        [Event.globalGet context.Global.self "open",
          Event.callFunction (context.Global.Get "open") context.Global.self args.Length
            args.values],
        args.Holder⟩ := by
  unfold openCallback
  simp [hlen, hframe, hcontext, hfunction, hproxy, openCallback_params]

/-- C4, amended, on a sample: three arguments, a global whose `open` is the
function 5. -/
theorem open_delegates_to_global_open_witness :
    openCallback (Sample.bindings (some Sample.globalWithOpen))
        ⟨Sample.wrapper Sample.plainDocument, [Value.number 1, Value.number 2, Value.number 3]⟩ =
      some ⟨some (Value.number 3),
        [Event.globalGet (Value.object 100) "open",
          Event.callFunction (Value.function 5) (Value.object 100) 3
            [Value.number 1, Value.number 2, Value.number 3]],
        Sample.wrapper Sample.plainDocument⟩ :=
  open_delegates_to_global_open (Sample.bindings (some Sample.globalWithOpen))
    ⟨Sample.wrapper Sample.plainDocument, [Value.number 1, Value.number 2, Value.number 3]⟩
    Sample.frame ⟨Sample.globalWithOpen⟩ Sample.proxy (by decide) rfl rfl (by decide) rfl

/-- C5 as stated fails: the global object has no `open` property at all, and
`openCallback` with three arguments raises the error all the same. -/
theorem open_raises_without_open_property :
    Sample.globalWithoutOpen.properties "open" = none ∧
      (openCallback (Sample.bindings (some Sample.globalWithoutOpen))
          ⟨Sample.wrapper Sample.plainDocument, [Value.null, Value.null, Value.null]⟩).map
        (fun o => (o.ret, o.trace)) =
        some (some Value.undefined,
          [Event.globalGet (Value.object 100) "open",
            Event.throwError "open is not a function"]) := by
  decide

/-- C5, amended: `openCallback` raises a script error if and only if the call
has more than two arguments, the frame of the document and the context of that
frame resolve, and the value read from the `open` property of the global object
is not a function (which includes the value undefined read when the property
does not exist); in that case it returns undefined and neither the global
`open` nor the document's own open is invoked; and no other function of this
file raises an error. -/
theorem open_raises_iff_open_not_function (env : Bindings) (args : Arguments) :
    ((∃ o, openCallback env args = some o ∧ raisesError o.trace = true) ↔
        (2 < args.Length ∧ ∃ frame context, (toNative args.Holder).frame = some frame ∧
          env.context frame = some context ∧
          (context.Global.Get "open").IsFunction = false)) ∧
      (∀ o, openCallback env args = some o → raisesError o.trace = true →
        o.ret = some Value.undefined ∧ o.trace.any Event.isCallFunction = false ∧
          o.trace.any Event.isDocumentOpen = false) ∧
      (∀ name info, raisesError (namedPropertyDeleter name info).trace = false) ∧
      (∀ name info, raisesError (namedPropertyGetter env name info).trace = false) ∧
      (∀ index info, raisesError (indexedPropertyGetter env index info).trace = false) ∧
      raisesError (writeCallback env args).trace = false ∧
      raisesError (writelnCallback env args).trace = false ∧
      (∀ name info, raisesError (allAccessorGetter env name info).trace = false) ∧
      (∀ name value info, raisesError (allAccessorSetter name value info).trace = false) ∧
      (∀ heap impl forceNewObject,
        raisesError (toV8 env heap impl forceNewObject).trace = false) := by
  have hgetter : ∀ name info, raisesError (namedPropertyGetter env name info).trace = false := by
    intro name info
    unfold namedPropertyGetter
    simp only []
    split
    · rfl
    · exact lookup_raises_nothing env _ _
  refine ⟨?_, ?_, ?_, hgetter, fun index info => hgetter _ info, rfl, rfl, fun _ _ => rfl,
    fun _ _ _ => rfl, ?_⟩
  · unfold openCallback
    by_cases hlen : 2 < args.Length
    · cases hframe : (toNative args.Holder).frame with
      | none => simp [hlen, hframe, openCallback.ownOpen, raisesError, Event.isError]
      | some frame =>
        cases hcontext : env.context frame with
        | none => simp [hlen, hframe, hcontext, raisesError]
        | some context =>
          cases hfunction : (context.Global.Get "open").IsFunction with
          | false => simp [hlen, hframe, hcontext, hfunction, raisesError, Event.isError]
          | true =>
            cases hproxy : env.retrieve (some frame) with
            | none => simp [hlen, hframe, hcontext, hfunction, hproxy]
            | some proxy =>
              simp [hlen, hframe, hcontext, hfunction, hproxy, raisesError, Event.isError]
    · simp [hlen, openCallback.ownOpen, raisesError, Event.isError]
  · intro o ho hraise
    unfold openCallback at ho
    by_cases hlen : 2 < args.Length
    · cases hframe : (toNative args.Holder).frame with
      | none =>
        simp [hlen, hframe, openCallback.ownOpen] at ho
        subst ho
        simp [raisesError, Event.isError] at hraise
      | some frame =>
        cases hcontext : env.context frame with
        | none =>
          simp [hlen, hframe, hcontext] at ho
          subst ho
          simp [raisesError] at hraise
        | some context =>
          cases hfunction : (context.Global.Get "open").IsFunction with
          | false =>
            simp [hlen, hframe, hcontext, hfunction] at ho
            subst ho
            simp [Event.isCallFunction, Event.isDocumentOpen]
          | true =>
            cases hproxy : env.retrieve (some frame) with
            | none => simp [hlen, hframe, hcontext, hfunction, hproxy] at ho
            | some proxy =>
              simp [hlen, hframe, hcontext, hfunction, hproxy] at ho
              subst ho
              simp [raisesError, Event.isError] at hraise
    · simp [hlen, openCallback.ownOpen] at ho
      subst ho
      simp [raisesError, Event.isError] at hraise
  · intro name info
    unfold namedPropertyDeleter
    simp only []
    split <;> rfl
  · intro heap impl forceNewObject
    unfold toV8
    cases impl with
    | none => rfl
    | some impl =>
      simp only []
      split
      · rfl
      · simp only []
        repeat (first | split | simp [raisesError, Event.isError])

/-- C5, amended, on a sample: three arguments and a global without `open`. -/
theorem open_raises_iff_open_not_function_witness :
    (Outcome.mk (some Value.undefined)
          [Event.globalGet (Value.object 100) "open",
            Event.throwError "open is not a function"]
          (Sample.wrapper Sample.plainDocument)).ret = some Value.undefined ∧
      List.any
          [Event.globalGet (Value.object 100) "open",
            Event.throwError "open is not a function"] Event.isCallFunction = false ∧
      List.any
          [Event.globalGet (Value.object 100) "open",
            Event.throwError "open is not a function"] Event.isDocumentOpen = false :=
  (open_raises_iff_open_not_function (Sample.bindings (some Sample.globalWithoutOpen))
      ⟨Sample.wrapper Sample.plainDocument, [Value.null, Value.null, Value.null]⟩).2.1
    ⟨some Value.undefined,
      [Event.globalGet (Value.object 100) "open", Event.throwError "open is not a function"],
      Sample.wrapper Sample.plainDocument⟩
    rfl (by decide)

/-- C6 as stated fails: with three arguments on a document that has no frame,
`openCallback` calls the document's own open and returns the holder, not
undefined. -/
theorem open_three_arguments_without_frame :
    2 < (Arguments.mk (Sample.wrapper Sample.detachedDocument)
          [Value.null, Value.null, Value.null]).Length ∧
      (toNative (Sample.wrapper Sample.detachedDocument)).frame = none ∧
      (openCallback (Sample.bindings (some Sample.globalWithOpen))
          ⟨Sample.wrapper Sample.detachedDocument, [Value.null, Value.null, Value.null]⟩).map
        (fun o => (o.ret, o.trace)) =
        some (some (Value.object 6), [Event.documentOpen 3 (some 1)]) := by
  decide

/-- C6, amended: for every call of `openCallback` with more than two arguments,
if the document has a frame whose script context cannot be resolved, the call
returns undefined, raises no error and invokes neither the global `open` nor
the document's own open (it makes no call at all); if the document has no
frame, the call raises no error and does not read or invoke the global `open`:
it calls the document's own open once and returns the holder. -/
theorem open_degrades_without_context (env : Bindings) (args : Arguments)
    (hlen : 2 < args.Length) :
    (∀ frame, (toNative args.Holder).frame = some frame → env.context frame = none →
        openCallback env args = some ⟨some Value.undefined, [], args.Holder⟩) ∧
      ((toNative args.Holder).frame = none →
        openCallback env args =
          some ⟨some args.Holder.self,
            [Event.documentOpen (toNative args.Holder).ref
              (env.retrieveFrameForCallingContext.bind Frame.document)],
            args.Holder⟩) := by
  constructor
  · intro frame hframe hcontext
    unfold openCallback
    simp [hlen, hframe, hcontext]
  · intro hframe
    unfold openCallback
    simp only [hlen, hframe, gt_iff_lt, if_true, openCallback.ownOpen]
    cases env.retrieveFrameForCallingContext <;> rfl

/-- C6, amended, on a sample: three arguments, a frame without a context. -/
theorem open_degrades_without_context_witness :
    openCallback (Sample.bindings none)
        ⟨Sample.wrapper Sample.plainDocument, [Value.null, Value.null, Value.null]⟩ =
      some ⟨some Value.undefined, [], Sample.wrapper Sample.plainDocument⟩ :=
  (open_degrades_without_context (Sample.bindings none)
      ⟨Sample.wrapper Sample.plainDocument, [Value.null, Value.null, Value.null]⟩
      (by decide)).1 Sample.frame rfl rfl

/-- C7: for every name to which the `all` shadow does not apply (the name is not
"all", or the shadow slot equals the marker slot), `namedPropertyGetter`
returns the empty handle when the document has neither a named item nor an
extra named item for the name, and when the collection of named items is empty;
otherwise it returns the single element when the collection has exactly one
item, except that for an iframe with a content frame it returns the window of
that frame; and it returns the collection itself when it has two or more
items.  The holder is left as it was. -/
theorem named_item_lookup (env : Bindings) (name : String) (info : AccessorInfo)
    (hshadow : name ≠ "all" ∨
      info.Holder.GetInternalField shadowIndex = info.Holder.GetInternalField markerIndex) :
    ((toNative info.Holder).hasNamedItem name = false ∧
        (toNative info.Holder).hasExtraNamedItem name = false →
        (namedPropertyGetter env name info).ret = none) ∧
      (((toNative info.Holder).documentNamedItems name).length = 0 →
        (namedPropertyGetter env name info).ret = none) ∧
      ((toNative info.Holder).hasNamedItem name = true ∨
          (toNative info.Holder).hasExtraNamedItem name = true →
        ∀ node, ((toNative info.Holder).documentNamedItems name).items = [node] →
          (∀ frame, node.hasTagName iframeTag = true → node.contentFrame = some frame →
            (namedPropertyGetter env name info).ret = env.toV8DOMWindow frame.domWindow) ∧
          (node.hasTagName iframeTag = false ∨ node.contentFrame = none →
            (namedPropertyGetter env name info).ret = env.toV8Node node)) ∧
      ((toNative info.Holder).hasNamedItem name = true ∨
          (toNative info.Holder).hasExtraNamedItem name = true →
        2 ≤ ((toNative info.Holder).documentNamedItems name).length →
        (namedPropertyGetter env name info).ret =
          env.toV8HTMLCollection ((toNative info.Holder).documentNamedItems name)) ∧
      (namedPropertyGetter env name info).holder = info.Holder := by
  have hpath : ¬ (name = "all" ∧
      info.Holder.GetInternalField markerIndex ≠ info.Holder.GetInternalField shadowIndex) := by
    rintro ⟨hname, hne⟩
    rcases hshadow with h | h
    · exact h hname
    · exact hne h.symm
  have hret : (namedPropertyGetter env name info).ret =
      (namedPropertyGetter.lookup env (toNative info.Holder) name).1 := by
    unfold namedPropertyGetter
    simp only [v8StringToAtomicWebCoreString, hpath, if_false]
  rw [hret]
  refine ⟨?_, ?_, ?_, ?_, namedPropertyGetter_holder env name info⟩
  · rintro ⟨h1, h2⟩
    simp [namedPropertyGetter.lookup, h1, h2]
  · intro hlen
    unfold namedPropertyGetter.lookup
    simp only [hlen, if_true]
    split <;> rfl
  · intro hhas node hitems
    have hnot : ¬ ((!(toNative info.Holder).hasNamedItem name &&
        !(toNative info.Holder).hasExtraNamedItem name) = true) := by
      rcases hhas with h | h <;> simp [h]
    have hlen : ((toNative info.Holder).documentNamedItems name).length = 1 := by
      simp [HTMLCollection.length, hitems]
    have hfirst : ((toNative info.Holder).documentNamedItems name).firstItem = some node := by
      simp [HTMLCollection.firstItem, hitems]
    constructor
    · intro frame htag hframe
      simp [namedPropertyGetter.lookup, hnot, hlen, hfirst, htag, hframe]
    · intro hplain
      unfold namedPropertyGetter.lookup
      simp only [hnot, hlen, hfirst, if_false, if_true, one_ne_zero]
      rcases hplain with h | h <;> simp [h]
  · intro hhas hlen
    have hnot : ¬ ((!(toNative info.Holder).hasNamedItem name &&
        !(toNative info.Holder).hasExtraNamedItem name) = true) := by
      rcases hhas with h | h <;> simp [h]
    have h0 : ((toNative info.Holder).documentNamedItems name).length ≠ 0 := by omega
    have h1 : ((toNative info.Holder).documentNamedItems name).length ≠ 1 := by omega
    simp [namedPropertyGetter.lookup, hnot, h0, h1]

/-- C7, on a sample: the name `pane` of the sample document refers to one iframe
with a content frame, so the window of that frame is returned. -/
theorem named_item_lookup_witness :
    (namedPropertyGetter (Sample.bindings none) "pane" ⟨Sample.wrapper Sample.richDocument⟩).ret =
      some (Value.object 21) :=
  ((named_item_lookup (Sample.bindings none) "pane" ⟨Sample.wrapper Sample.richDocument⟩
      (Or.inl (by decide))).2.2.1 (Or.inl (by decide)) Sample.iframe rfl).1
    ⟨11, some 2, 21⟩ (by decide) rfl

/-- C8: for every call of `openCallback` with at most two arguments, the only
call made is one call of the document's own open, passing the document of the
calling frame, or null when no calling frame can be resolved; the global `open`
is neither read nor invoked; and the returned value is the holder of the
call. -/
theorem open_with_at_most_two_arguments (env : Bindings) (args : Arguments)
    (hlen : args.Length ≤ 2) :
    openCallback env args =
        some ⟨some args.Holder.self,
          [Event.documentOpen (toNative args.Holder).ref
            (match env.retrieveFrameForCallingContext with
             | some frame => frame.document
             | none => none)],
          args.Holder⟩ ∧
      (∀ o, openCallback env args = some o →
        o.trace.any Event.isGlobalGet = false ∧ o.trace.any Event.isCallFunction = false ∧
          (o.trace.filter Event.isDocumentOpen).length = 1) := by
  have hnot : ¬ (args.Length > 2) := by omega
  have h : openCallback env args =
      some ⟨some args.Holder.self,
        [Event.documentOpen (toNative args.Holder).ref
          (match env.retrieveFrameForCallingContext with
           | some frame => frame.document
           | none => none)],
        args.Holder⟩ := by
    unfold openCallback
    simp only [hnot, if_false, openCallback.ownOpen]
  refine ⟨h, ?_⟩
  intro o ho
  rw [h] at ho
  simp only [Option.some.injEq] at ho
  subst ho
  simp [Event.isGlobalGet, Event.isCallFunction, Event.isDocumentOpen]

/-- C8, on a sample: two arguments, a global whose `open` is a function. -/
theorem open_with_at_most_two_arguments_witness :
    openCallback (Sample.bindings (some Sample.globalWithOpen))
        ⟨Sample.wrapper Sample.plainDocument, [Value.string "text/html", Value.string "replace"]⟩ =
      some ⟨some (Value.object 6), [Event.documentOpen 1 (some 1)],
        Sample.wrapper Sample.plainDocument⟩ :=
  (open_with_at_most_two_arguments (Sample.bindings (some Sample.globalWithOpen))
    ⟨Sample.wrapper Sample.plainDocument, [Value.string "text/html", Value.string "replace"]⟩
    (by decide)).1

/-- C10: for every unsigned 32-bit index and every wrapper state,
`indexedPropertyGetter` returns exactly what `namedPropertyGetter` returns for
the decimal string of the index on the same state (value, calls and holder),
and leaves every slot of the wrapper as it was. -/
theorem indexed_getter_is_named_getter (env : Bindings) (index : Nat) (info : AccessorInfo)
    (hindex : index < 2 ^ 32) :
    indexedPropertyGetter env index info = namedPropertyGetter env (Nat.repr index) info ∧
      (indexedPropertyGetter env index info).holder = info.Holder := by
  have hstring : Integer.ToString (Integer.NewFromUnsigned index) = Nat.repr index := by
    unfold Integer.ToString Integer.NewFromUnsigned
    rw [Nat.mod_eq_of_lt hindex]
    rfl
  have hsame : indexedPropertyGetter env index info =
      namedPropertyGetter env (Nat.repr index) info := by
    show namedPropertyGetter env (Integer.ToString (Integer.NewFromUnsigned index)) info = _
    rw [hstring]
  exact ⟨hsame, by rw [hsame]; exact namedPropertyGetter_holder env _ info⟩

/-- C10, on a sample: index 12 is looked up under the name "12". -/
theorem indexed_getter_is_named_getter_witness :
    indexedPropertyGetter (Sample.bindings none) 12 ⟨Sample.wrapper Sample.richDocument⟩ =
        namedPropertyGetter (Sample.bindings none) (Nat.repr 12)
          ⟨Sample.wrapper Sample.richDocument⟩ ∧
      (indexedPropertyGetter (Sample.bindings none) 12
          ⟨Sample.wrapper Sample.richDocument⟩).holder = Sample.wrapper Sample.richDocument :=
  indexed_getter_is_named_getter (Sample.bindings none) 12 ⟨Sample.wrapper Sample.richDocument⟩
    (by decide)

end WebCore
